import Mathlib

/-!
Shallow embedding of the MD_Gamepad Arduino library (src/MD_Gamepad.h).

The library is a single class `MD_Gamepad` that polls seven digital
switches (active low, pull-up wiring) and two analog joystick axes.
Machine integers are modelled as `Nat`/`Int` with explicit reductions
modulo `2^32` (for `uint32_t` / `millis()`) and `2^16` (for `uint16_t`
and the AVR 16-bit `int` arithmetic of the analog adjustment) wherever
overflow can matter.

The hardware boundary (`millis`, `digitalRead`, `analogRead`) is an
explicit environment record passed to every operation; the mutable
member variables of the class form an explicit `State` record, and each
member function becomes a pure function `Env → State → result × State`.
-/

namespace MDG

/-- `2^32`, the modulus of `uint32_t` arithmetic (`millis()` timestamps). -/
def U32 : Nat := 4294967296

/-- `2^16`, the modulus of `uint16_t` / AVR 16-bit `int` arithmetic. -/
def U16 : Nat := 65536

/-- Wraparound-safe unsigned 32-bit difference: the value of the C
expression `a - b` at type `uint32_t`. -/
def sub32 (a b : Nat) : Nat := (a % U32 + U32 - b % U32) % U32

/-- Reinterpret a value modulo `2^16` as a two's-complement `int16_t`.
Models the C assignment of the unsigned 16-bit subtraction result to the
`int16_t` members `_valueX` / `_valueY`. -/
def toInt16 (n : Nat) : Int :=
  if n % U16 < 32768 then ((n % U16 : Nat) : Int)
  else ((n % U16 : Nat) : Int) - (U16 : Int)

/-- The value of `analogRead(pin) - offset` as computed by the source:
on AVR the operands are promoted to 16-bit unsigned arithmetic and the
result is stored into an `int16_t` member. -/
def adcAdjust (raw offset : Nat) : Int :=
  toInt16 (raw % U16 + U16 - offset % U16)

/-- `switch_t` enumeration from the source. -/
inductive switch_t : Type
  | SW_NONE | SW_A | SW_B | SW_C | SW_D | SW_E | SW_F | SW_K | SW_X | SW_Y
deriving DecidableEq, Repr

open switch_t

def PIN_A : Nat := 2
def PIN_B : Nat := 3
def PIN_C : Nat := 4
def PIN_D : Nat := 5
def PIN_E : Nat := 6
def PIN_F : Nat := 7
def PIN_K : Nat := 8
/-- Analog pin A0 (pin 14 on the reference Arduino Uno board). -/
def PIN_X : Nat := 14
/-- Analog pin A1 (pin 15 on the reference Arduino Uno board). -/
def PIN_Y : Nat := 15

def DEFAULT_DELAY : Nat := 100
def DEFAULT_DB : Nat := 5

/-- One element of the pin-to-switch-ID table (`pin2sw_t` in the source). -/
structure pin2sw_t where
  pin : Nat
  sw : switch_t
deriving DecidableEq, Repr

/-- The fixed lookup table `_pinDigital` from the source, in declaration
order A, B, C, D, E, F, K. -/
def pinDigital : List pin2sw_t :=
  [⟨PIN_A, SW_A⟩, ⟨PIN_B, SW_B⟩, ⟨PIN_C, SW_C⟩,
   ⟨PIN_D, SW_D⟩, ⟨PIN_E, SW_E⟩, ⟨PIN_F, SW_F⟩,
   ⟨PIN_K, SW_K⟩]

/-- Hardware environment: the clock and pin-read primitives.
`digitalRead p = false` models a pin reading `LOW` (active, because of
the pull-up wiring); `true` models `HIGH`. -/
structure Env where
  millis : Nat
  digitalRead : Nat → Bool
  analogRead : Nat → Nat

/-- The mutable member variables of the `MD_Gamepad` class. -/
structure State where
  timeLastDigital : Nat
  timeLastAnalog : Nat
  timeBetweenReads : Nat
  deadband : Nat
  offsetX : Nat
  offsetY : Nat
  valueX : Int
  valueY : Int
deriving DecidableEq, Repr

/-- `MD_Gamepad::begin`: sets the default read delay and deadband and
captures the analog zero offsets.  The `pinMode` hardware calls have no
effect on the member state and are not modelled; the timestamps and
cached values are left uninitialized by the source, so they keep
whatever value the incoming state carries. -/
def begin (env : Env) (s : State) : State :=
  { s with
    timeBetweenReads := DEFAULT_DELAY
    deadband := DEFAULT_DB
    offsetX := env.analogRead PIN_X % U16
    offsetY := env.analogRead PIN_Y % U16 }

/-- `MD_Gamepad::setReadDelay`: stores the `uint16_t` argument. -/
def setReadDelay (s : State) (d : Nat) : State :=
  { s with timeBetweenReads := d % U16 }

/-- The scanning loop body of `getSwitch`: return the switch ID of the
first table entry whose pin reads `LOW`, else `SW_NONE`. -/
def scanPins (dr : Nat → Bool) : List pin2sw_t → switch_t
  | [] => SW_NONE
  | e :: rest => if dr e.pin = false then e.sw else scanPins dr rest

/-- `MD_Gamepad::getSwitch`. -/
def getSwitch (env : Env) (s : State) : switch_t × State :=
  if sub32 env.millis s.timeLastDigital < s.timeBetweenReads then
    (SW_NONE, s)
  else
    (scanPins env.digitalRead pinDigital,
     { s with timeLastDigital := env.millis % U32 })

/-- `MD_Gamepad::anyKey`. -/
def anyKey (env : Env) (s : State) : Bool × State :=
  let r := getSwitch env s
  (decide (r.1 ≠ SW_NONE), r.2)

/-- `MD_Gamepad::getJoystickValue`. -/
def getJoystickValue (env : Env) (s : State) (sw : switch_t) :
    Int × State :=
  if sub32 env.millis s.timeLastAnalog < s.timeBetweenReads then
    ((if sw = SW_X then s.valueX else s.valueY), s)
  else
    let s1 := { s with timeLastAnalog := env.millis % U32 }
    match sw with
    | SW_X =>
        let v0 := adcAdjust (env.analogRead PIN_X) s.offsetX
        let v := if v0.natAbs < s.deadband then 0 else v0
        (v, { s1 with valueX := v })
    | SW_Y =>
        let v0 := adcAdjust (env.analogRead PIN_Y) s.offsetY
        let v := if v0.natAbs < s.deadband then 0 else v0
        (v, { s1 with valueY := v })
    | _ => (0, s1)

/-- `MD_Gamepad::getJoystickDirection`. -/
def getJoystickDirection (env : Env) (s : State) (sw : switch_t) :
    Int × State :=
  if sub32 env.millis s.timeLastAnalog < s.timeBetweenReads then
    (0, s)
  else
    let r := getJoystickValue env s sw
    ((if r.1 = 0 then 0 else if r.1 < 0 then -1 else 1), r.2)

/-- The public API of the class, as an operation type: every member
function a caller can invoke after construction. -/
inductive Op : Type
  | opBegin : Op
  | opSetReadDelay : Nat → Op
  | opAnyKey : Op
  | opGetSwitch : Op
  | opGetJoystickDirection : switch_t → Op
  | opGetJoystickValue : switch_t → Op
deriving DecidableEq, Repr

/-- State effect of one public API call. -/
def applyOp (env : Env) (s : State) : Op → State
  | .opBegin => begin env s
  | .opSetReadDelay d => setReadDelay s d
  | .opAnyKey => (anyKey env s).2
  | .opGetSwitch => (getSwitch env s).2
  | .opGetJoystickDirection sw => (getJoystickDirection env s sw).2
  | .opGetJoystickValue sw => (getJoystickValue env s sw).2

/-- State effect of a sequence of public API calls, each with its own
hardware environment (clock value and pin readings). -/
def runOps (s : State) : List (Env × Op) → State
  | [] => s
  | c :: rest => runOps (applyOp c.1 s c.2) rest

/-! Concrete hardware environments and states used to evaluate the
operations at specific inputs. -/

/-- Clock at 1000 ms, all digital pins high (nothing pressed), every
analog pin reading 500. -/
def envAllHigh : Env :=
  { millis := 1000
    digitalRead := fun _ => true
    analogRead := fun _ => 500 }

/-- Clock at 1000 ms, pins A (2) and B (3) both low (pressed), all
other pins high, every analog pin reading 500. -/
def envAB : Env :=
  { millis := 1000
    digitalRead := fun p => decide (3 < p)
    analogRead := fun _ => 500 }

/-- Clock at 1000 ms, all digital pins high, every analog pin
reading 510. -/
def env510 : Env :=
  { millis := 1000
    digitalRead := fun _ => true
    analogRead := fun _ => 510 }

/-- Clock at 1000 ms, all digital pins high, every analog pin
reading 503. -/
def env503 : Env :=
  { millis := 1000
    digitalRead := fun _ => true
    analogRead := fun _ => 503 }

/-- Both domains sampled recently (at 950 ms): at clock 1000 ms with a
100 ms interval, both gates are closed. -/
def sMid : State :=
  { timeLastDigital := 950
    timeLastAnalog := 950
    timeBetweenReads := 100
    deadband := 5
    offsetX := 500
    offsetY := 500
    valueX := 3
    valueY := 7 }

/-- Both domains last sampled at 0 ms: at clock 1000 ms with a 100 ms
interval, both gates are open. -/
def sZero : State :=
  { timeLastDigital := 0
    timeLastAnalog := 0
    timeBetweenReads := 100
    deadband := 5
    offsetX := 500
    offsetY := 500
    valueX := 3
    valueY := 7 }

/-- Digital domain sampled recently (950 ms), analog domain long ago
(0 ms). -/
def sMix : State :=
  { timeLastDigital := 950
    timeLastAnalog := 0
    timeBetweenReads := 100
    deadband := 5
    offsetX := 500
    offsetY := 500
    valueX := 3
    valueY := 7 }

/-- Read interval set to 0: gating disabled in both domains. -/
def sTbr0 : State :=
  { timeLastDigital := 950
    timeLastAnalog := 950
    timeBetweenReads := 0
    deadband := 5
    offsetX := 500
    offsetY := 500
    valueX := 3
    valueY := 7 }

/-! Helper lemmas. -/

/-- Within the 10-bit ADC range (0–1023) the unsigned 16-bit
subtraction reinterpreted as `int16_t` is exact integer subtraction. -/
theorem adcAdjust_eq (raw off : Nat) (h1 : raw < 1024) (h2 : off < 1024) :
    adcAdjust raw off = (raw : Int) - (off : Int) := by
  simp only [adcAdjust, toInt16, U16]
  split <;> omega

/-- If every pin in the table reads high, the scan finds nothing. -/
theorem scanPins_eq_none (dr : Nat → Bool) (l : List pin2sw_t)
    (h : ∀ e ∈ l, dr e.pin = true) : scanPins dr l = SW_NONE := by
  induction l with
  | nil => rfl
  | cons e rest ih =>
      have he : dr e.pin = true := h e (by simp)
      have hr : scanPins dr rest = SW_NONE :=
        ih fun x hx => h x (by simp [hx])
      simp [scanPins, he, hr]

/-- The scan returns the switch ID of the first low pin: if entry `i`
reads low and every earlier entry reads high, the result is entry
`i`'s switch ID. -/
theorem scanPins_eq_of_first (dr : Nat → Bool) (l : List pin2sw_t) :
    ∀ (i : Nat) (hi : i < l.length),
      dr (l.get ⟨i, hi⟩).pin = false →
      (∀ (j : Nat) (hj : j < l.length), j < i → dr (l.get ⟨j, hj⟩).pin = true) →
      scanPins dr l = (l.get ⟨i, hi⟩).sw := by
  induction l with
  | nil => intro i hi; exact absurd hi (Nat.not_lt_zero i)
  | cons e rest ih =>
      intro i hi hlow hhigh
      cases i with
      | zero => simp_all [scanPins]
      | succ k =>
          have he : dr e.pin = true := hhigh 0 (Nat.succ_pos _) (Nat.succ_pos k)
          have hk : k < rest.length := Nat.lt_of_succ_lt_succ hi
          have htail : scanPins dr rest = (rest.get ⟨k, hk⟩).sw := by
            refine ih k hk (by simpa using hlow) ?_
            intro j hj hjk
            simpa using hhigh (j + 1) (Nat.succ_lt_succ hj) (Nat.succ_lt_succ hjk)
          simpa [scanPins, he] using htail

/-- `getSwitch` never changes the deadband field. -/
theorem getSwitch_deadband (env : Env) (s : State) :
    ((getSwitch env s).2).deadband = s.deadband := by
  unfold getSwitch; split <;> rfl

/-- `getJoystickValue` never changes the deadband field. -/
theorem getJoystickValue_deadband (env : Env) (s : State) (sw : switch_t) :
    ((getJoystickValue env s sw).2).deadband = s.deadband := by
  unfold getJoystickValue
  split
  · rfl
  · cases sw <;> rfl

/-- `getJoystickDirection` never changes the deadband field. -/
theorem getJoystickDirection_deadband (env : Env) (s : State) (sw : switch_t) :
    ((getJoystickDirection env s sw).2).deadband = s.deadband := by
  unfold getJoystickDirection
  split
  · rfl
  · exact getJoystickValue_deadband env s sw

/-- Every public API call leaves a default deadband at the default:
no operation can move the deadband away from `DEFAULT_DB`. -/
theorem applyOp_deadband (env : Env) (s : State) (op : Op)
    (h : s.deadband = DEFAULT_DB) : (applyOp env s op).deadband = DEFAULT_DB := by
  cases op with
  | opBegin => rfl
  | opSetReadDelay d => exact h
  | opAnyKey => simpa [applyOp, anyKey] using (getSwitch_deadband env s).trans h
  | opGetSwitch => exact (getSwitch_deadband env s).trans h
  | opGetJoystickDirection sw => exact (getJoystickDirection_deadband env s sw).trans h
  | opGetJoystickValue sw => exact (getJoystickValue_deadband env s sw).trans h

/-- No sequence of public API calls can move the deadband away from
the default once it is at the default. -/
theorem runOps_deadband (s : State) (calls : List (Env × Op))
    (h : s.deadband = DEFAULT_DB) : (runOps s calls).deadband = DEFAULT_DB := by
  induction calls generalizing s with
  | nil => exact h
  | cons c rest ih => exact ih _ (applyOp_deadband c.1 s c.2 h)

/-! Claim theorems. -/

/-- Claim C1 (corrected): for a selector other than `SW_X` and `SW_Y`,
`getJoystickValue` returns 0 whenever the analog gating interval has
elapsed; within the gating window it instead returns the cached Y-axis
value, because the cached-value branch treats every selector other than
`SW_X` as the Y axis. -/
theorem claim_C1 (env : Env) (s : State) (sw : switch_t)
    (h1 : sw ≠ SW_X) (h2 : sw ≠ SW_Y) :
    (¬ sub32 env.millis s.timeLastAnalog < s.timeBetweenReads →
       (getJoystickValue env s sw).1 = 0) ∧
    (sub32 env.millis s.timeLastAnalog < s.timeBetweenReads →
       (getJoystickValue env s sw).1 = s.valueY) := by
  constructor
  · intro h
    cases sw <;> first
      | exact absurd rfl h1
      | exact absurd rfl h2
      | simp [getJoystickValue, if_neg h]
  · intro h
    simp [getJoystickValue, h, h1]

/-- Claim C1 counterexample: in a state where the analog gate is closed
(the interval has not elapsed), `getJoystickValue` with selector `SW_A`
returns the cached Y-axis value 7, not 0. -/
theorem claim_C1_cex :
    sub32 envAllHigh.millis sMid.timeLastAnalog < sMid.timeBetweenReads ∧
    (getJoystickValue envAllHigh sMid SW_A).1 ≠ 0 := by
  decide

/-- Claim C1 witness: both branches of the corrected claim at concrete
inputs. -/
theorem claim_C1_witness :
    (getJoystickValue envAllHigh sZero SW_A).1 = 0 ∧
    (getJoystickValue envAllHigh sMid SW_A).1 = sMid.valueY :=
  ⟨(claim_C1 envAllHigh sZero SW_A (by decide) (by decide)).1 (by decide),
   (claim_C1 envAllHigh sMid SW_A (by decide) (by decide)).2 (by decide)⟩

/-- Claim C2 (confirmed): when the analog gating interval has elapsed,
`getJoystickValue` on the X (resp. Y) axis returns the raw analog sample
minus the captured zero-offset, clamped to exactly 0 when its absolute
value is strictly below the deadband; the result is cached in that
axis's value field and the last-analog timestamp is set to now.
The ADC-range hypotheses reflect the platform's 10-bit converter. -/
theorem claim_C2 (env : Env) (s : State)
    (h : ¬ sub32 env.millis s.timeLastAnalog < s.timeBetweenReads)
    (hrx : env.analogRead PIN_X < 1024) (hox : s.offsetX < 1024)
    (hry : env.analogRead PIN_Y < 1024) (hoy : s.offsetY < 1024) :
    ((getJoystickValue env s SW_X).1 =
       (if ((env.analogRead PIN_X : Int) - (s.offsetX : Int)).natAbs < s.deadband then 0
        else (env.analogRead PIN_X : Int) - (s.offsetX : Int))) ∧
    ((getJoystickValue env s SW_X).2 =
       { s with
           timeLastAnalog := env.millis % U32
           valueX := (getJoystickValue env s SW_X).1 }) ∧
    ((getJoystickValue env s SW_Y).1 =
       (if ((env.analogRead PIN_Y : Int) - (s.offsetY : Int)).natAbs < s.deadband then 0
        else (env.analogRead PIN_Y : Int) - (s.offsetY : Int))) ∧
    ((getJoystickValue env s SW_Y).2 =
       { s with
           timeLastAnalog := env.millis % U32
           valueY := (getJoystickValue env s SW_Y).1 }) := by
  have hx := adcAdjust_eq (env.analogRead PIN_X) s.offsetX hrx hox
  have hy := adcAdjust_eq (env.analogRead PIN_Y) s.offsetY hry hoy
  refine ⟨?_, ?_, ?_, ?_⟩ <;> simp [getJoystickValue, h, hx, hy]

/-- Claim C2 witness: the spec's own worked example — raw reading at
offset + 3 with deadband 5 yields 0, raw reading at offset + 10
yields 10. -/
theorem claim_C2_witness :
    (getJoystickValue env503 sZero SW_X).1 = 0 ∧
    (getJoystickValue env510 sZero SW_X).1 = 10 :=
  ⟨((claim_C2 env503 sZero (by decide) (by decide) (by decide) (by decide)
      (by decide)).1).trans (by decide),
   ((claim_C2 env510 sZero (by decide) (by decide) (by decide) (by decide)
      (by decide)).1).trans (by decide)⟩

/-- Claim C3 (confirmed): when the digital gating interval has not
elapsed, `getSwitch` returns `SW_NONE` and leaves the state (in
particular the last-digital timestamp) unchanged, regardless of the pin
states; otherwise it stores the current clock value as the last-digital
timestamp. -/
theorem claim_C3 (env : Env) (s : State) :
    (sub32 env.millis s.timeLastDigital < s.timeBetweenReads →
       getSwitch env s = (SW_NONE, s)) ∧
    (¬ sub32 env.millis s.timeLastDigital < s.timeBetweenReads →
       (getSwitch env s).2 = { s with timeLastDigital := env.millis % U32 }) := by
  constructor <;> intro h <;> simp [getSwitch, h]

/-- Claim C3 witness: both branches at concrete inputs. -/
theorem claim_C3_witness :
    getSwitch envAllHigh sMid = (SW_NONE, sMid) ∧
    (getSwitch envAllHigh sZero).2 =
      { sZero with timeLastDigital := envAllHigh.millis % U32 } :=
  ⟨(claim_C3 envAllHigh sMid).1 (by decide),
   (claim_C3 envAllHigh sZero).2 (by decide)⟩

/-- Claim C4 (confirmed): when the digital gating interval has elapsed,
`getSwitch` returns the switch ID of the first entry of the pin table
(in declaration order A, B, C, D, E, F, K) whose pin reads low; when
several pins are simultaneously low only the earliest entry is
reported, and when no mapped pin is low the result is `SW_NONE`. -/
theorem claim_C4 (env : Env) (s : State)
    (h : ¬ sub32 env.millis s.timeLastDigital < s.timeBetweenReads) :
    ((∀ e ∈ pinDigital, env.digitalRead e.pin = true) →
       (getSwitch env s).1 = SW_NONE) ∧
    (∀ (i : Nat) (hi : i < pinDigital.length),
       env.digitalRead (pinDigital.get ⟨i, hi⟩).pin = false →
       (∀ (j : Nat) (hj : j < pinDigital.length), j < i →
          env.digitalRead (pinDigital.get ⟨j, hj⟩).pin = true) →
       (getSwitch env s).1 = (pinDigital.get ⟨i, hi⟩).sw) := by
  have hfst : (getSwitch env s).1 = scanPins env.digitalRead pinDigital := by
    simp [getSwitch, h]
  constructor
  · intro hall
    rw [hfst]
    exact scanPins_eq_none env.digitalRead pinDigital hall
  · intro i hi hlow hhigh
    rw [hfst]
    exact scanPins_eq_of_first env.digitalRead pinDigital i hi hlow hhigh

/-- Claim C4 witness: with no pin low the scan yields `SW_NONE`; with
pins A and B simultaneously low it yields `SW_A`, the earlier entry. -/
theorem claim_C4_witness :
    (getSwitch envAllHigh sZero).1 = SW_NONE ∧
    (getSwitch envAB sZero).1 = SW_A :=
  ⟨(claim_C4 envAllHigh sZero (by decide)).1 (by decide),
   ((claim_C4 envAB sZero (by decide)).2 0 (by decide) (by decide)
      (fun j _ hj0 => absurd hj0 (Nat.not_lt_zero j))).trans (by decide)⟩

/-- Claim C5 (confirmed): `getJoystickDirection` always returns -1, 0
or +1; it returns 0 (with the state unchanged) whenever the analog gate
is closed, even if the cached adjusted value is non-zero, and otherwise
returns the sign of the adjusted value obtained from
`getJoystickValue`. -/
theorem claim_C5 (env : Env) (s : State) (sw : switch_t) :
    ((getJoystickDirection env s sw).1 = -1 ∨ (getJoystickDirection env s sw).1 = 0 ∨
       (getJoystickDirection env s sw).1 = 1) ∧
    (sub32 env.millis s.timeLastAnalog < s.timeBetweenReads →
       getJoystickDirection env s sw = (0, s)) ∧
    (¬ sub32 env.millis s.timeLastAnalog < s.timeBetweenReads →
       (getJoystickDirection env s sw).1 = ((getJoystickValue env s sw).1).sign) := by
  by_cases h : sub32 env.millis s.timeLastAnalog < s.timeBetweenReads
  · refine ⟨?_, fun _ => ?_, fun hc => absurd h hc⟩
    · simp [getJoystickDirection, h]
    · simp [getJoystickDirection, h]
  · have hsign : (getJoystickDirection env s sw).1 =
        ((getJoystickValue env s sw).1).sign := by
      simp only [getJoystickDirection, if_neg h]
      rcases lt_trichotomy (getJoystickValue env s sw).1 0 with hv | hv | hv
      · simp [hv, hv.ne, Int.sign_eq_neg_one_of_neg hv]
      · simp [hv]
      · simp [hv.ne.symm, not_lt.mpr (le_of_lt hv), Int.sign_eq_one_of_pos hv]
    refine ⟨?_, fun hc => absurd hc h, fun _ => hsign⟩
    rw [hsign]
    rcases lt_trichotomy (getJoystickValue env s sw).1 0 with hv | hv | hv
    · exact Or.inl (Int.sign_eq_neg_one_of_neg hv)
    · exact Or.inr (Or.inl (by simp [hv]))
    · exact Or.inr (Or.inr (Int.sign_eq_one_of_pos hv))

/-- Claim C5 witness: within the gating window the direction is 0 even
though the cached X value is 3; outside the window it is the sign of
the fresh adjusted value. -/
theorem claim_C5_witness :
    getJoystickDirection envAllHigh sMid SW_X = (0, sMid) ∧
    (getJoystickDirection env510 sZero SW_X).1 =
      ((getJoystickValue env510 sZero SW_X).1).sign :=
  ⟨(claim_C5 envAllHigh sMid SW_X).2.1 (by decide),
   (claim_C5 env510 sZero SW_X).2.2 (by decide)⟩

/-- Claim C6 (confirmed): within the gating window `getJoystickValue`
on a valid axis returns the cached adjusted value for that axis with
the state completely unchanged, so repeated calls in the window all
return the identical value. -/
theorem claim_C6 (env : Env) (s : State)
    (h : sub32 env.millis s.timeLastAnalog < s.timeBetweenReads) :
    getJoystickValue env s SW_X = (s.valueX, s) ∧
    getJoystickValue env s SW_Y = (s.valueY, s) ∧
    getJoystickValue env (getJoystickValue env s SW_X).2 SW_X = (s.valueX, s) ∧
    getJoystickValue env (getJoystickValue env s SW_Y).2 SW_Y = (s.valueY, s) := by
  have hx : getJoystickValue env s SW_X = (s.valueX, s) := by
    simp [getJoystickValue, h]
  have hy : getJoystickValue env s SW_Y = (s.valueY, s) := by
    simp [getJoystickValue, h]
  exact ⟨hx, hy, by rw [hx]; exact hx, by rw [hy]; exact hy⟩

/-- Claim C6 witness: repeated gated calls at a concrete input. -/
theorem claim_C6_witness :
    getJoystickValue envAllHigh sMid SW_X = (sMid.valueX, sMid) ∧
    getJoystickValue envAllHigh sMid SW_Y = (sMid.valueY, sMid) ∧
    getJoystickValue envAllHigh (getJoystickValue envAllHigh sMid SW_X).2 SW_X =
      (sMid.valueX, sMid) ∧
    getJoystickValue envAllHigh (getJoystickValue envAllHigh sMid SW_Y).2 SW_Y =
      (sMid.valueY, sMid) :=
  claim_C6 envAllHigh sMid (by decide)

/-- Claim C7 (confirmed): `setReadDelay` accepts any unsigned value
(stored modulo 2^16) including 0, and when the configured interval is 0
no gating test can succeed (an unsigned difference is never strictly
below 0), so every call — including the immediately following one —
takes a fresh hardware sample. -/
theorem claim_C7 (env : Env) (s : State) (d : Nat)
    (h0 : s.timeBetweenReads = 0) :
    ((setReadDelay s d).timeBetweenReads = d % U16) ∧
    ((setReadDelay s 0).timeBetweenReads = 0) ∧
    (¬ sub32 env.millis s.timeLastDigital < s.timeBetweenReads) ∧
    (¬ sub32 env.millis s.timeLastAnalog < s.timeBetweenReads) ∧
    ((getSwitch env s).1 = scanPins env.digitalRead pinDigital) ∧
    ((getSwitch env ((getSwitch env s).2)).1 = scanPins env.digitalRead pinDigital) ∧
    ((getJoystickValue env s SW_X).1 =
       (if (adcAdjust (env.analogRead PIN_X) s.offsetX).natAbs < s.deadband then 0
        else adcAdjust (env.analogRead PIN_X) s.offsetX)) ∧
    ((getJoystickValue env ((getJoystickValue env s SW_X).2) SW_X).1 =
       (if (adcAdjust (env.analogRead PIN_X) s.offsetX).natAbs < s.deadband then 0
        else adcAdjust (env.analogRead PIN_X) s.offsetX)) := by
  refine ⟨rfl, rfl, ?_, ?_, ?_, ?_, ?_, ?_⟩ <;>
    simp [getSwitch, getJoystickValue, h0]

/-- Claim C7 witness: with the interval at 0, two consecutive calls at
the same clock value both sample fresh. -/
theorem claim_C7_witness :
    ((setReadDelay sTbr0 0).timeBetweenReads = 0) ∧
    ((getSwitch envAB sTbr0).1 = scanPins envAB.digitalRead pinDigital) ∧
    ((getSwitch envAB ((getSwitch envAB sTbr0).2)).1 =
       scanPins envAB.digitalRead pinDigital) ∧
    ((getJoystickValue env510 sTbr0 SW_X).1 =
       (if (adcAdjust (env510.analogRead PIN_X) sTbr0.offsetX).natAbs < sTbr0.deadband then 0
        else adcAdjust (env510.analogRead PIN_X) sTbr0.offsetX)) ∧
    ((getJoystickValue env510 ((getJoystickValue env510 sTbr0 SW_X).2) SW_X).1 =
       (if (adcAdjust (env510.analogRead PIN_X) sTbr0.offsetX).natAbs < sTbr0.deadband then 0
        else adcAdjust (env510.analogRead PIN_X) sTbr0.offsetX)) :=
  ⟨(claim_C7 envAB sTbr0 0 rfl).2.1,
   (claim_C7 envAB sTbr0 0 rfl).2.2.2.2.1,
   (claim_C7 envAB sTbr0 0 rfl).2.2.2.2.2.1,
   (claim_C7 env510 sTbr0 0 rfl).2.2.2.2.2.2.1,
   (claim_C7 env510 sTbr0 0 rfl).2.2.2.2.2.2.2⟩

/-- Claim C8 counterexample: the deadband cannot be changed by the
caller after `begin` has run — no sequence of public API calls, under
any hardware environments, ever moves it away from the default. -/
theorem claim_C8_cex :
    ¬ ∃ (env0 : Env) (s0 : State) (calls : List (Env × Op)),
        (runOps (begin env0 s0) calls).deadband ≠ DEFAULT_DB := by
  rintro ⟨env0, s0, calls, hne⟩
  exact hne (runOps_deadband (begin env0 s0) calls rfl)

/-- Claim C8 (corrected): after `begin`, only the minimum-read-interval
is caller-configurable (via `setReadDelay`, effective for every
subsequent read in both domains); the deadband stays at the default set
by `begin` under every sequence of public API calls, and the analog
read path uses the deadband field currently in the state. -/
theorem claim_C8 (env0 env : Env) (s0 s : State) (d : Nat)
    (calls : List (Env × Op)) :
    ((runOps (begin env0 s0) calls).deadband = DEFAULT_DB) ∧
    ((setReadDelay s d).timeBetweenReads = d % U16) ∧
    ((setReadDelay s d).deadband = s.deadband) ∧
    (sub32 env.millis s.timeLastDigital < d % U16 →
       getSwitch env (setReadDelay s d) = (SW_NONE, setReadDelay s d)) ∧
    (¬ sub32 env.millis s.timeLastDigital < d % U16 →
       (getSwitch env (setReadDelay s d)).1 = scanPins env.digitalRead pinDigital) ∧
    (¬ sub32 env.millis s.timeLastAnalog < s.timeBetweenReads →
       (getJoystickValue env s SW_X).1 =
         (if (adcAdjust (env.analogRead PIN_X) s.offsetX).natAbs < s.deadband then 0
          else adcAdjust (env.analogRead PIN_X) s.offsetX)) := by
  refine ⟨runOps_deadband (begin env0 s0) calls rfl, rfl, rfl, ?_, ?_, ?_⟩
  · intro h
    simp [getSwitch, setReadDelay, h]
  · intro h
    simp [getSwitch, setReadDelay, h]
  · intro h
    simp [getJoystickValue, if_neg h]

/-- Claim C8 witness: a concrete call sequence leaves the deadband at
the default; a freshly configured interval immediately governs the
digital gate in both directions; the analog path applies the state's
deadband. -/
theorem claim_C8_witness :
    ((runOps (begin envAllHigh sMid) [(envAllHigh, Op.opSetReadDelay 7)]).deadband =
       DEFAULT_DB) ∧
    ((setReadDelay sZero 200).timeBetweenReads = 200 % U16) ∧
    (getSwitch envAllHigh (setReadDelay sMix 200) = (SW_NONE, setReadDelay sMix 200)) ∧
    ((getSwitch envAllHigh (setReadDelay sZero 50)).1 =
       scanPins envAllHigh.digitalRead pinDigital) ∧
    ((getJoystickValue env510 sZero SW_X).1 =
       (if (adcAdjust (env510.analogRead PIN_X) sZero.offsetX).natAbs < sZero.deadband then 0
        else adcAdjust (env510.analogRead PIN_X) sZero.offsetX)) :=
  ⟨(claim_C8 envAllHigh envAllHigh sMid sZero 200 [(envAllHigh, Op.opSetReadDelay 7)]).1,
   (claim_C8 envAllHigh envAllHigh sMid sZero 200 []).2.1,
   (claim_C8 envAllHigh envAllHigh sMid sMix 200 []).2.2.2.1 (by decide),
   (claim_C8 envAllHigh envAllHigh sMid sZero 50 []).2.2.2.2.1 (by decide),
   (claim_C8 envAllHigh env510 sMid sZero 200 []).2.2.2.2.2 (by decide)⟩

/-- Claim C9 (confirmed): every interval gate is the unsigned 32-bit
modular difference of the clock and the stored timestamp compared
against the configured interval: the modular difference is invariant
under shifting both timestamps (so it is wraparound-safe and
independent of their signed order), the gate decision is a function of
that difference alone, and each of `getSwitch`, `getJoystickDirection`
and `getJoystickValue` branches exactly on that comparison. -/
theorem claim_C9 (env env2 : Env) (s s2 : State)
    (now last tbr k now2 last2 : Nat) :
    (sub32 (now + k) (last + k) = sub32 now last) ∧
    (sub32 now2 last2 = sub32 now last →
       ((sub32 now2 last2 < tbr) ↔ (sub32 now last < tbr))) ∧
    (getSwitch env s =
       (if sub32 env.millis s.timeLastDigital < s.timeBetweenReads then (SW_NONE, s)
        else (scanPins env.digitalRead pinDigital,
              { s with timeLastDigital := env.millis % U32 }))) ∧
    (∀ sw, sub32 env2.millis s2.timeLastAnalog < s2.timeBetweenReads →
       getJoystickDirection env2 s2 sw = (0, s2) ∧
       getJoystickValue env2 s2 sw = ((if sw = SW_X then s2.valueX else s2.valueY), s2)) ∧
    (∀ sw, ¬ sub32 env2.millis s2.timeLastAnalog < s2.timeBetweenReads →
       (getJoystickValue env2 s2 sw).2.timeLastAnalog = env2.millis % U32) := by
  refine ⟨?_, fun h => by rw [h], rfl, ?_, ?_⟩
  · simp only [sub32, U32]
    omega
  · intro sw h
    exact ⟨by simp [getJoystickDirection, h], by simp [getJoystickValue, h]⟩
  · intro sw h
    simp only [getJoystickValue, if_neg h]
    cases sw <;> rfl

/-- Claim C9 witness: a wrapped clock (now numerically below the stored
timestamp) is handled by the modular difference — the instantiation
uses now = 5 against the stored timestamp 4294967286 (difference 15)
and compares it with the unwrapped pair (20, 5). -/
theorem claim_C9_witness :
    (sub32 (5 + 4294967281) (4294967286 + 4294967281) = sub32 5 4294967286) ∧
    ((sub32 20 5 < 100) ↔ (sub32 5 4294967286 < 100)) ∧
    (getSwitch envAllHigh sZero =
       (if sub32 envAllHigh.millis sZero.timeLastDigital < sZero.timeBetweenReads
        then (SW_NONE, sZero)
        else (scanPins envAllHigh.digitalRead pinDigital,
              { sZero with timeLastDigital := envAllHigh.millis % U32 }))) ∧
    (getJoystickDirection envAllHigh sMid SW_X = (0, sMid) ∧
       getJoystickValue envAllHigh sMid SW_X =
         ((if SW_X = SW_X then sMid.valueX else sMid.valueY), sMid)) ∧
    ((getJoystickValue envAllHigh sZero SW_X).2.timeLastAnalog =
       envAllHigh.millis % U32) :=
  ⟨(claim_C9 envAllHigh envAllHigh sZero sMid 5 4294967286 100 4294967281 20 5).1,
   (claim_C9 envAllHigh envAllHigh sZero sMid 5 4294967286 100 4294967281 20 5).2.1
     (by decide),
   (claim_C9 envAllHigh envAllHigh sZero sMid 5 4294967286 100 4294967281 20 5).2.2.1,
   (claim_C9 envAllHigh envAllHigh sZero sMid 5 4294967286 100 4294967281 20 5).2.2.2.1
     SW_X (by decide),
   (claim_C9 envAllHigh envAllHigh sZero sZero 5 4294967286 100 4294967281 20 5).2.2.2.2
     SW_X (by decide)⟩

/-- Claim C10 (confirmed): with the analog gate open, an invalid
selector makes `getJoystickValue` return 0 while still storing the
current clock as the last-analog timestamp, so an immediately following
call with a valid selector inside the new gating window returns the
stale cached value instead of sampling. -/
theorem claim_C10 (env : Env) (s : State) (sw : switch_t)
    (h : ¬ sub32 env.millis s.timeLastAnalog < s.timeBetweenReads)
    (h1 : sw ≠ SW_X) (h2 : sw ≠ SW_Y) :
    (getJoystickValue env s sw = (0, { s with timeLastAnalog := env.millis % U32 })) ∧
    (∀ env2 : Env, sub32 env2.millis (env.millis % U32) < s.timeBetweenReads →
       getJoystickValue env2 (getJoystickValue env s sw).2 SW_X =
         (s.valueX, (getJoystickValue env s sw).2)) := by
  have hmain : getJoystickValue env s sw =
      (0, { s with timeLastAnalog := env.millis % U32 }) := by
    cases sw <;> first
      | exact absurd rfl h1
      | exact absurd rfl h2
      | simp [getJoystickValue, if_neg h]
  refine ⟨hmain, ?_⟩
  intro env2 hg
  rw [hmain]
  simp [getJoystickValue, hg]

/-- Claim C10 witness: at clock 1000 with the gate open, a call with
`SW_A` updates the timestamp, and a second call at the same clock with
`SW_X` is gated and returns the stale cached X value. -/
theorem claim_C10_witness :
    (getJoystickValue envAllHigh sZero SW_A =
       (0, { sZero with timeLastAnalog := envAllHigh.millis % U32 })) ∧
    (getJoystickValue envAllHigh (getJoystickValue envAllHigh sZero SW_A).2 SW_X =
       (sZero.valueX, (getJoystickValue envAllHigh sZero SW_A).2)) :=
  ⟨(claim_C10 envAllHigh sZero SW_A (by decide) (by decide) (by decide)).1,
   (claim_C10 envAllHigh sZero SW_A (by decide) (by decide) (by decide)).2
     envAllHigh (by decide)⟩

end MDG
